import Mathlib

set_option maxHeartbeats 1000000

namespace ZodExpress

/-- The closed set of named request parts, as in the `type` field of
`ErrorListItem` in src/src/index.ts (`'Query' | 'Params' | 'Body'`). -/
inductive PartType
  | Params
  | Query
  | Body
  deriving DecidableEq

/-- `ErrorListItem` from src/src/index.ts: pairs a named part tag with the
validation error produced by `safeParse`.  The error type is the opaque
parameter `E` (a `ZodError` in the source, never inspected by this core). -/
structure ErrorListItem (E : Type) where
  type : PartType
  errors : E
  deriving DecidableEq

/-- A zod schema, abstracted to the single operation this library uses:
`safeParse`, a total function from a request-field value to either a
normalized output value (`success: true, data`) or a validation error
(`success: false, error`).  Field values live in the opaque type `V`. -/
abbrev Schema (V E : Type) : Type :=
  V → Except E V

/-- An Express request, restricted to the three fields this middleware
reads and writes: `req.params`, `req.query`, `req.body`. -/
structure Request (V : Type) where
  params : V
  query : V
  body : V
  deriving DecidableEq

/-- The payload argument of a `res.send` call.  `sendErrors` sends an array
of `{ type, errors }` entries; `sendError` sends one bare `{ type, errors }`
object, which is a different JSON payload than a one-element array. -/
inductive SendPayload (E : Type)
  | single (entry : ErrorListItem E)
  | list (entries : List (ErrorListItem E))
  deriving DecidableEq

/-- The observable interaction with an Express response: the ordered log of
`res.status(code).send(payload)` calls performed on it. -/
abbrev ResponseLog (E : Type) : Type :=
  List (Nat × SendPayload E)

/-- The observable outcome of running one middleware handler on a request:
the final request object (handlers may mutate its fields), the response
log, and how many times `next()` was invoked. -/
structure MwState (V E : Type) where
  req : Request V
  res : ResponseLog E
  nextCalls : Nat
  deriving DecidableEq

/-- `sendErrors` from src/src/index.ts: performs
`res.status(400).send(errors.map((error) => ({ type: error.type, errors: error.errors })))`. -/
def sendErrors {E : Type} (errors : List (ErrorListItem E)) (res : ResponseLog E) :
    ResponseLog E :=
  res ++ [(400, SendPayload.list (errors.map fun error =>
    { type := error.type, errors := error.errors }))]

/-- `sendError` from src/src/index.ts: performs
`res.status(400).send({ type: error.type, errors: error.errors })` — the
payload is the bare object, not an array. -/
def sendError {E : Type} (error : ErrorListItem E) (res : ResponseLog E) :
    ResponseLog E :=
  res ++ [(400, SendPayload.single { type := error.type, errors := error.errors })]

/-- `stripReadOnly` from src/src/index.ts: `return readOnlyItem as NonReadOnly<T>`.
The `as` cast is purely static, so at runtime the function returns its
argument unchanged. -/
def stripReadOnly {T : Type} (readOnlyItem : T) : T :=
  readOnlyItem

/-- `processRequestBody` from src/src/index.ts: safeParse `req.body`; on
success overwrite `req.body` with the parse output and call `next()`; on
failure send a one-item error list for part `Body`. -/
def processRequestBody {V E : Type} (effectsSchema : Schema V E) (req : Request V) :
    MwState V E :=
  match effectsSchema req.body with
  | Except.ok d => { req := { req with body := d }, res := [], nextCalls := 1 }
  | Except.error e =>
      { req := req
        res := sendErrors [{ type := PartType.Body, errors := e }] []
        nextCalls := 0 }

/-- `processRequestParams` from src/src/index.ts. -/
def processRequestParams {V E : Type} (effectsSchema : Schema V E) (req : Request V) :
    MwState V E :=
  match effectsSchema req.params with
  | Except.ok d => { req := { req with params := d }, res := [], nextCalls := 1 }
  | Except.error e =>
      { req := req
        res := sendErrors [{ type := PartType.Params, errors := e }] []
        nextCalls := 0 }

/-- `processRequestQuery` from src/src/index.ts. -/
def processRequestQuery {V E : Type} (effectsSchema : Schema V E) (req : Request V) :
    MwState V E :=
  match effectsSchema req.query with
  | Except.ok d => { req := { req with query := d }, res := [], nextCalls := 1 }
  | Except.error e =>
      { req := req
        res := sendErrors [{ type := PartType.Query, errors := e }] []
        nextCalls := 0 }

/-- The `schemas` argument of `processRequest` / `validateRequest`:
`Partial<{ params, query, body }>` — each of the three schemas optional. -/
structure RequestSchemas (V E : Type) where
  params : Option (Schema V E)
  query : Option (Schema V E)
  body : Option (Schema V E)

/-- `processRequest` from src/src/index.ts: in declaration order Params,
Query, Body, each configured schema safeParses the current field; success
overwrites the field immediately, failure pushes an `ErrorListItem`.  After
all configured parts, a non-empty error list goes to `sendErrors`,
otherwise `next()` is called. -/
def processRequest {V E : Type} (schemas : RequestSchemas V E) (req : Request V) :
    MwState V E :=
  let st1 : Request V × List (ErrorListItem E) :=
    match schemas.params with
    | some s =>
        match s req.params with
        | Except.ok d => ({ req with params := d }, [])
        | Except.error e => (req, [{ type := PartType.Params, errors := e }])
    | none => (req, [])
  let st2 : Request V × List (ErrorListItem E) :=
    match schemas.query with
    | some s =>
        match s st1.1.query with
        | Except.ok d => ({ st1.1 with query := d }, st1.2)
        | Except.error e => (st1.1, st1.2 ++ [{ type := PartType.Query, errors := e }])
    | none => st1
  let st3 : Request V × List (ErrorListItem E) :=
    match schemas.body with
    | some s =>
        match s st2.1.body with
        | Except.ok d => ({ st2.1 with body := d }, st2.2)
        | Except.error e => (st2.1, st2.2 ++ [{ type := PartType.Body, errors := e }])
    | none => st2
  if st3.2.length > 0 then
    { req := st3.1, res := sendErrors st3.2 [], nextCalls := 0 }
  else
    { req := st3.1, res := [], nextCalls := 1 }

/-- `validateRequestBody` from src/src/index.ts: safeParse `req.body`; call
`next()` on success, send a one-item `Body` error list on failure; never
writes to the request. -/
def validateRequestBody {V E : Type} (schema : Schema V E) (req : Request V) :
    MwState V E :=
  match schema req.body with
  | Except.ok _ => { req := req, res := [], nextCalls := 1 }
  | Except.error e =>
      { req := req
        res := sendErrors [{ type := PartType.Body, errors := e }] []
        nextCalls := 0 }

/-- `validateRequestParams` from src/src/index.ts. -/
def validateRequestParams {V E : Type} (schema : Schema V E) (req : Request V) :
    MwState V E :=
  match schema req.params with
  | Except.ok _ => { req := req, res := [], nextCalls := 1 }
  | Except.error e =>
      { req := req
        res := sendErrors [{ type := PartType.Params, errors := e }] []
        nextCalls := 0 }

/-- `validateRequestQuery` from src/src/index.ts. -/
def validateRequestQuery {V E : Type} (schema : Schema V E) (req : Request V) :
    MwState V E :=
  match schema req.query with
  | Except.ok _ => { req := req, res := [], nextCalls := 1 }
  | Except.error e =>
      { req := req
        res := sendErrors [{ type := PartType.Query, errors := e }] []
        nextCalls := 0 }

/-- `validateRequest` from src/src/index.ts: same aggregation order as
`processRequest` but never writes parse output back to the request. -/
def validateRequest {V E : Type} (schemas : RequestSchemas V E) (req : Request V) :
    MwState V E :=
  let errs1 : List (ErrorListItem E) :=
    match schemas.params with
    | some s =>
        match s req.params with
        | Except.ok _ => []
        | Except.error e => [{ type := PartType.Params, errors := e }]
    | none => []
  let errs2 : List (ErrorListItem E) :=
    match schemas.query with
    | some s =>
        match s req.query with
        | Except.ok _ => errs1
        | Except.error e => errs1 ++ [{ type := PartType.Query, errors := e }]
    | none => errs1
  let errs3 : List (ErrorListItem E) :=
    match schemas.body with
    | some s =>
        match s req.body with
        | Except.ok _ => errs2
        | Except.error e => errs2 ++ [{ type := PartType.Body, errors := e }]
    | none => errs2
  if errs3.length > 0 then
    { req := req, res := sendErrors errs3 [], nextCalls := 0 }
  else
    { req := req, res := [], nextCalls := 1 }

/-- The error items one optional schema contributes for one part: empty when
the schema is unconfigured or its parse succeeds, a singleton tagged with
the part otherwise. -/
def partErrors {V E : Type} (s : Option (Schema V E)) (t : PartType) (v : V) :
    List (ErrorListItem E) :=
  match s with
  | none => []
  | some sch =>
      match sch v with
      | Except.ok _ => []
      | Except.error e => [{ type := t, errors := e }]

/-- The full ordered error list a multi-part dispatcher accumulates on a
request: the Params, Query, Body contributions concatenated in declaration
order. -/
def collectedErrors {V E : Type} (schemas : RequestSchemas V E) (req : Request V) :
    List (ErrorListItem E) :=
  partErrors schemas.params PartType.Params req.params ++
    partErrors schemas.query PartType.Query req.query ++
    partErrors schemas.body PartType.Body req.body

/-- The value a request field holds after a process-mode dispatcher ran one
optional schema over it: the parse output when the schema is configured and
succeeds, the original value otherwise. -/
def applyPart {V E : Type} (s : Option (Schema V E)) (v : V) : V :=
  match s with
  | none => v
  | some sch =>
      match sch v with
      | Except.ok d => d
      | Except.error _ => v


/-- Whether one response-log entry is a status-400 send whose payload is a
non-empty error array: the only kind of send any dispatcher ever performs. -/
def nonEmptyErrorSend {E : Type} : Nat × SendPayload E → Bool
  | (code, SendPayload.list l) => decide (code = 400) && !l.isEmpty
  | (_, SendPayload.single _) => false

/-- A concrete schema set for evaluating the dispatchers: params always
fails with error 7, query unconfigured, body succeeds with value + 1. -/
def wSchemas : RequestSchemas Nat Nat :=
  { params := some fun _ => Except.error 7
    query := none
    body := some fun v => Except.ok (v + 1) }

/-- A concrete request for evaluating the dispatchers. -/
def wReq : Request Nat :=
  { params := 1, query := 2, body := 3 }

namespace Check

theorem processRequest_eq {V E : Type} (schemas : RequestSchemas V E) (req : Request V) :
    processRequest schemas req =
      { req :=
          { params := applyPart schemas.params req.params
            query := applyPart schemas.query req.query
            body := applyPart schemas.body req.body }
        res :=
          if (collectedErrors schemas req).isEmpty then []
          else sendErrors (collectedErrors schemas req) []
        nextCalls := if (collectedErrors schemas req).isEmpty then 1 else 0 } := by
  rcases schemas with ⟨p, q, b⟩
  rcases p with _ | sp <;> rcases q with _ | sq <;> rcases b with _ | sb <;>
    simp only [processRequest, collectedErrors, partErrors, applyPart] <;>
    (repeat' split) <;>
    simp_all [sendErrors]

theorem validateRequest_eq {V E : Type} (schemas : RequestSchemas V E) (req : Request V) :
    validateRequest schemas req =
      { req := req
        res :=
          if (collectedErrors schemas req).isEmpty then []
          else sendErrors (collectedErrors schemas req) []
        nextCalls := if (collectedErrors schemas req).isEmpty then 1 else 0 } := by
  rcases schemas with ⟨p, q, b⟩
  rcases p with _ | sp <;> rcases q with _ | sq <;> rcases b with _ | sb <;>
    simp only [validateRequest, collectedErrors, partErrors] <;>
    (repeat' split) <;>
    simp_all [sendErrors]

end Check


namespace Check

theorem partErrors_length_le {V E : Type} (os : Option (Schema V E)) (t : PartType) (v : V) :
    (partErrors os t v).length ≤ 1 := by
  unfold partErrors
  (repeat' split) <;> simp

theorem partErrors_type_eq {V E : Type} (os : Option (Schema V E)) (t : PartType) (v : V) :
    ∀ it ∈ partErrors os t v, it.type = t := by
  unfold partErrors
  (repeat' split) <;> simp_all

end Check

/-- C1: for every dispatcher (multi-part or single-part, process or validate
mode) and every request, the next-stage callback runs exactly when the list
of recorded error items is empty, in which case nothing is sent on the
response; otherwise next never runs and exactly one error response (built by
`sendErrors` from the recorded items) is sent — the two outcomes are
mutually exclusive. -/
theorem next_iff_no_errors {V E : Type} :
    (∀ (schemas : RequestSchemas V E) (req : Request V),
      (processRequest schemas req).nextCalls =
          (if (collectedErrors schemas req).isEmpty then 1 else 0) ∧
        (processRequest schemas req).res =
          (if (collectedErrors schemas req).isEmpty then []
           else sendErrors (collectedErrors schemas req) [])) ∧
    (∀ (schemas : RequestSchemas V E) (req : Request V),
      (validateRequest schemas req).nextCalls =
          (if (collectedErrors schemas req).isEmpty then 1 else 0) ∧
        (validateRequest schemas req).res =
          (if (collectedErrors schemas req).isEmpty then []
           else sendErrors (collectedErrors schemas req) [])) ∧
    (∀ (s : Schema V E) (req : Request V),
      (processRequestParams s req).nextCalls =
          (if (partErrors (some s) PartType.Params req.params).isEmpty then 1 else 0) ∧
        (processRequestParams s req).res =
          (if (partErrors (some s) PartType.Params req.params).isEmpty then []
           else sendErrors (partErrors (some s) PartType.Params req.params) [])) ∧
    (∀ (s : Schema V E) (req : Request V),
      (processRequestQuery s req).nextCalls =
          (if (partErrors (some s) PartType.Query req.query).isEmpty then 1 else 0) ∧
        (processRequestQuery s req).res =
          (if (partErrors (some s) PartType.Query req.query).isEmpty then []
           else sendErrors (partErrors (some s) PartType.Query req.query) [])) ∧
    (∀ (s : Schema V E) (req : Request V),
      (processRequestBody s req).nextCalls =
          (if (partErrors (some s) PartType.Body req.body).isEmpty then 1 else 0) ∧
        (processRequestBody s req).res =
          (if (partErrors (some s) PartType.Body req.body).isEmpty then []
           else sendErrors (partErrors (some s) PartType.Body req.body) [])) ∧
    (∀ (s : Schema V E) (req : Request V),
      (validateRequestParams s req).nextCalls =
          (if (partErrors (some s) PartType.Params req.params).isEmpty then 1 else 0) ∧
        (validateRequestParams s req).res =
          (if (partErrors (some s) PartType.Params req.params).isEmpty then []
           else sendErrors (partErrors (some s) PartType.Params req.params) [])) ∧
    (∀ (s : Schema V E) (req : Request V),
      (validateRequestQuery s req).nextCalls =
          (if (partErrors (some s) PartType.Query req.query).isEmpty then 1 else 0) ∧
        (validateRequestQuery s req).res =
          (if (partErrors (some s) PartType.Query req.query).isEmpty then []
           else sendErrors (partErrors (some s) PartType.Query req.query) [])) ∧
    (∀ (s : Schema V E) (req : Request V),
      (validateRequestBody s req).nextCalls =
          (if (partErrors (some s) PartType.Body req.body).isEmpty then 1 else 0) ∧
        (validateRequestBody s req).res =
          (if (partErrors (some s) PartType.Body req.body).isEmpty then []
           else sendErrors (partErrors (some s) PartType.Body req.body) [])) := by
  refine ⟨?_, ?_, ?_, ?_, ?_, ?_, ?_, ?_⟩
  · intro schemas req
    rw [Check.processRequest_eq]
    exact ⟨rfl, rfl⟩
  · intro schemas req
    rw [Check.validateRequest_eq]
    exact ⟨rfl, rfl⟩
  · intro s req
    cases h : s req.params <;>
      simp [processRequestParams, partErrors, h]
  · intro s req
    cases h : s req.query <;>
      simp [processRequestQuery, partErrors, h]
  · intro s req
    cases h : s req.body <;>
      simp [processRequestBody, partErrors, h]
  · intro s req
    cases h : s req.params <;>
      simp [validateRequestParams, partErrors, h]
  · intro s req
    cases h : s req.query <;>
      simp [validateRequestQuery, partErrors, h]
  · intro s req
    cases h : s req.body <;>
      simp [validateRequestBody, partErrors, h]


/-- C2: for every process-mode dispatcher and request, each request field
ends up equal to `applyPart` of its configured schema — i.e. it is
overwritten with the parse output exactly when a schema was configured for
that part and its parse succeeded, and is left unchanged otherwise,
independently of every other part's outcome. -/
theorem process_mutates_iff_configured_success {V E : Type} :
    (∀ (schemas : RequestSchemas V E) (req : Request V),
      (processRequest schemas req).req =
        { params := applyPart schemas.params req.params
          query := applyPart schemas.query req.query
          body := applyPart schemas.body req.body }) ∧
    (∀ (s : Schema V E) (req : Request V),
      (processRequestParams s req).req =
        { params := applyPart (some s) req.params, query := req.query, body := req.body }) ∧
    (∀ (s : Schema V E) (req : Request V),
      (processRequestQuery s req).req =
        { params := req.params, query := applyPart (some s) req.query, body := req.body }) ∧
    (∀ (s : Schema V E) (req : Request V),
      (processRequestBody s req).req =
        { params := req.params, query := req.query, body := applyPart (some s) req.body }) := by
  refine ⟨?_, ?_, ?_, ?_⟩
  · intro schemas req
    rw [Check.processRequest_eq]
  · intro s req
    cases h : s req.params <;> simp [processRequestParams, applyPart, h]
  · intro s req
    cases h : s req.query <;> simp [processRequestQuery, applyPart, h]
  · intro s req
    cases h : s req.body <;> simp [processRequestBody, applyPart, h]

/-- C3: no validate-mode dispatcher ever writes any field of the request:
the request object in the final state equals the input request, whether
validation succeeds or fails. -/
theorem validate_never_mutates {V E : Type} :
    (∀ (schemas : RequestSchemas V E) (req : Request V),
      (validateRequest schemas req).req = req) ∧
    (∀ (s : Schema V E) (req : Request V), (validateRequestParams s req).req = req) ∧
    (∀ (s : Schema V E) (req : Request V), (validateRequestQuery s req).req = req) ∧
    (∀ (s : Schema V E) (req : Request V), (validateRequestBody s req).req = req) := by
  refine ⟨?_, ?_, ?_, ?_⟩
  · intro schemas req
    rw [Check.validateRequest_eq]
  · intro s req
    cases h : s req.params <;> simp [validateRequestParams, h]
  · intro s req
    cases h : s req.query <;> simp [validateRequestQuery, h]
  · intro s req
    cases h : s req.body <;> simp [validateRequestBody, h]

/-- C7: a multi-part dispatcher built with zero configured schemas, in
either mode, always calls next exactly once, never sends anything on the
response, and returns the request untouched. -/
theorem zero_schemas_pass_through {V E : Type} (req : Request V) :
    processRequest (E := E) { params := none, query := none, body := none } req =
        { req := req, res := [], nextCalls := 1 } ∧
      validateRequest (E := E) { params := none, query := none, body := none } req =
        { req := req, res := [], nextCalls := 1 } :=
  ⟨rfl, rfl⟩

/-- C8: each single-part dispatcher is observably equal to the multi-part
dispatcher of the same mode configured with only that part's schema: same
final request, same response log, same next calls. -/
theorem single_part_eq_multi_part {V E : Type} (s : Schema V E) (req : Request V) :
    processRequestParams s req =
        processRequest { params := some s, query := none, body := none } req ∧
      processRequestQuery s req =
        processRequest { params := none, query := some s, body := none } req ∧
      processRequestBody s req =
        processRequest { params := none, query := none, body := some s } req ∧
      validateRequestParams s req =
        validateRequest { params := some s, query := none, body := none } req ∧
      validateRequestQuery s req =
        validateRequest { params := none, query := some s, body := none } req ∧
      validateRequestBody s req =
        validateRequest { params := none, query := none, body := some s } req := by
  refine ⟨?_, ?_, ?_, ?_, ?_, ?_⟩ <;>
    simp only [processRequestParams, processRequestQuery, processRequestBody,
      validateRequestParams, validateRequestQuery, validateRequestBody,
      processRequest, validateRequest] <;>
    (repeat' split) <;>
    simp_all [sendErrors]

/-- C9: `stripReadOnly` is the identity at runtime: it returns its argument
unchanged (the source's `as NonReadOnly<T>` cast exists only in the type
system). -/
theorem stripReadOnly_identity {T : Type} (x : T) : stripReadOnly x = x :=
  rfl


/-- C4: when at least one configured part of a multi-part dispatcher fails,
all configured parts were still checked: the single error response carries
the Params, then Query, then Body contributions concatenated in that fixed
order, with exactly one item (tagged with its part) per failing configured
part; next is not called; unconfigured parts contribute no item and are not
mutated. -/
theorem multipart_reports_all_failures {V E : Type} (schemas : RequestSchemas V E)
    (req : Request V) (h : collectedErrors schemas req ≠ []) :
    (processRequest schemas req).res =
        [(400, SendPayload.list ((partErrors schemas.params PartType.Params req.params ++
          partErrors schemas.query PartType.Query req.query ++
          partErrors schemas.body PartType.Body req.body).map
          fun e => { type := e.type, errors := e.errors }))] ∧
      (validateRequest schemas req).res =
        [(400, SendPayload.list ((partErrors schemas.params PartType.Params req.params ++
          partErrors schemas.query PartType.Query req.query ++
          partErrors schemas.body PartType.Body req.body).map
          fun e => { type := e.type, errors := e.errors }))] ∧
      (processRequest schemas req).nextCalls = 0 ∧
      (validateRequest schemas req).nextCalls = 0 ∧
      (∀ it ∈ partErrors schemas.params PartType.Params req.params,
        it.type = PartType.Params) ∧
      (∀ it ∈ partErrors schemas.query PartType.Query req.query,
        it.type = PartType.Query) ∧
      (∀ it ∈ partErrors schemas.body PartType.Body req.body, it.type = PartType.Body) ∧
      (partErrors schemas.params PartType.Params req.params).length ≤ 1 ∧
      (partErrors schemas.query PartType.Query req.query).length ≤ 1 ∧
      (partErrors schemas.body PartType.Body req.body).length ≤ 1 ∧
      (∀ s : Schema V E, schemas.params = some s → ∀ e : E, s req.params = Except.error e →
        partErrors schemas.params PartType.Params req.params =
          [{ type := PartType.Params, errors := e }]) ∧
      (∀ s : Schema V E, schemas.query = some s → ∀ e : E, s req.query = Except.error e →
        partErrors schemas.query PartType.Query req.query =
          [{ type := PartType.Query, errors := e }]) ∧
      (∀ s : Schema V E, schemas.body = some s → ∀ e : E, s req.body = Except.error e →
        partErrors schemas.body PartType.Body req.body =
          [{ type := PartType.Body, errors := e }]) ∧
      (schemas.params = none →
        partErrors schemas.params PartType.Params req.params = [] ∧
          (processRequest schemas req).req.params = req.params) ∧
      (schemas.query = none →
        partErrors schemas.query PartType.Query req.query = [] ∧
          (processRequest schemas req).req.query = req.query) ∧
      (schemas.body = none →
        partErrors schemas.body PartType.Body req.body = [] ∧
          (processRequest schemas req).req.body = req.body) := by
  have hne : (collectedErrors schemas req).isEmpty = false := by
    simpa [List.isEmpty_iff] using h
  refine ⟨?_, ?_, ?_, ?_, Check.partErrors_type_eq _ _ _, Check.partErrors_type_eq _ _ _,
    Check.partErrors_type_eq _ _ _, Check.partErrors_length_le _ _ _,
    Check.partErrors_length_le _ _ _, Check.partErrors_length_le _ _ _, ?_, ?_, ?_, ?_, ?_, ?_⟩
  · rw [Check.processRequest_eq, hne]
    simp [sendErrors, collectedErrors]
  · rw [Check.validateRequest_eq, hne]
    simp [sendErrors, collectedErrors]
  · rw [Check.processRequest_eq]
    simp [hne]
  · rw [Check.validateRequest_eq]
    simp [hne]
  · intro s hs e he
    simp [partErrors, hs, he]
  · intro s hs e he
    simp [partErrors, hs, he]
  · intro s hs e he
    simp [partErrors, hs, he]
  · intro hp
    rw [Check.processRequest_eq]
    simp [partErrors, hp, applyPart]
  · intro hq
    rw [Check.processRequest_eq]
    simp [partErrors, hq, applyPart]
  · intro hb
    rw [Check.processRequest_eq]
    simp [partErrors, hb, applyPart]

/-- Witness for C4: a concrete schema set (params fails with error 7, query
unconfigured, body succeeds) on a concrete request satisfies the hypothesis,
and the claimed error response follows. -/
theorem multipart_reports_all_failures_witness :
    collectedErrors wSchemas wReq ≠ [] ∧
      (processRequest wSchemas wReq).res =
        [(400, SendPayload.list ((partErrors wSchemas.params PartType.Params wReq.params ++
          partErrors wSchemas.query PartType.Query wReq.query ++
          partErrors wSchemas.body PartType.Body wReq.body).map
          fun e => { type := e.type, errors := e.errors }))] :=
  ⟨by decide, (multipart_reports_all_failures wSchemas wReq (by decide)).1⟩

/-- C5: for every non-empty error list, `sendErrors` performs exactly one
send with status 400 whose payload is an array with one entry per input
item, in the input order, each entry exposing the item's part tag and its
error unchanged. -/
theorem sendErrors_sends_400_ordered {E : Type} (items : List (ErrorListItem E))
    (res : ResponseLog E) (_hne : items ≠ []) :
    sendErrors items res =
        res ++ [(400, SendPayload.list
          (items.map fun e => { type := e.type, errors := e.errors }))] ∧
      (items.map fun e => ({ type := e.type, errors := e.errors } : ErrorListItem E)).length =
        items.length ∧
      ∀ i : Nat,
        (items.map fun e => ({ type := e.type, errors := e.errors } : ErrorListItem E))[i]? =
          (items[i]?).map fun e => { type := e.type, errors := e.errors } := by
  refine ⟨rfl, by simp, ?_⟩
  intro i
  simp

/-- Witness for C5 at a concrete one-item list and empty response log. -/
theorem sendErrors_sends_400_ordered_witness :
    ([{ type := PartType.Params, errors := 5 }] : List (ErrorListItem Nat)) ≠ [] ∧
      sendErrors [{ type := PartType.Params, errors := 5 }] ([] : ResponseLog Nat) =
        [] ++ [(400, SendPayload.list
          (([{ type := PartType.Params, errors := 5 }] : List (ErrorListItem Nat)).map
            fun e => { type := e.type, errors := e.errors }))] :=
  ⟨by decide, (sendErrors_sends_400_ordered _ _ (by decide)).1⟩

/-- C6 counterexample: at a concrete item, `sendError` and `sendErrors` on
the singleton list produce different response payloads (a bare object versus
a one-element array), so the two calls are not observably equivalent as the
claim states. -/
theorem sendError_not_sendErrors_singleton :
    sendError { type := PartType.Body, errors := 0 } ([] : ResponseLog Nat) ≠
      sendErrors [{ type := PartType.Body, errors := 0 }] [] := by
  decide

/-- C6 amended: `sendError item res` sets the same 400 status and sends an
entry with the same part tag and error that `sendErrors [item] res` sends as
the sole element of its array payload, but as a bare object rather than
wrapped in a one-element array. -/
theorem sendError_unwraps_singleton {E : Type} (it : ErrorListItem E)
    (res : ResponseLog E) :
    sendError it res =
        res ++ [(400, SendPayload.single { type := it.type, errors := it.errors })] ∧
      sendErrors [it] res =
        res ++ [(400, SendPayload.list [{ type := it.type, errors := it.errors }])] :=
  ⟨rfl, rfl⟩

/-- C10: `sendErrors` has no empty-input guard: called with `[]` it still
performs one status-400 send with an empty array payload; while every send
any dispatcher performs is a 400 with a non-empty array payload, so the
dispatchers themselves never call it with an empty list. -/
theorem sendErrors_empty_unguarded {V E : Type} :
    (∀ res : ResponseLog E, sendErrors [] res = res ++ [(400, SendPayload.list [])]) ∧
    (∀ (schemas : RequestSchemas V E) (req : Request V),
      (processRequest schemas req).res.all nonEmptyErrorSend = true ∧
        (validateRequest schemas req).res.all nonEmptyErrorSend = true) ∧
    (∀ (s : Schema V E) (req : Request V),
      (processRequestParams s req).res.all nonEmptyErrorSend = true ∧
        (processRequestQuery s req).res.all nonEmptyErrorSend = true ∧
        (processRequestBody s req).res.all nonEmptyErrorSend = true ∧
        (validateRequestParams s req).res.all nonEmptyErrorSend = true ∧
        (validateRequestQuery s req).res.all nonEmptyErrorSend = true ∧
        (validateRequestBody s req).res.all nonEmptyErrorSend = true) := by
  refine ⟨fun res => rfl, ?_, ?_⟩
  · intro schemas req
    constructor <;>
      rcases hc : collectedErrors schemas req with _ | ⟨a, l⟩ <;>
        simp [Check.processRequest_eq, Check.validateRequest_eq, hc, sendErrors,
          nonEmptyErrorSend]
  · intro s req
    refine ⟨?_, ?_, ?_, ?_, ?_, ?_⟩ <;>
      simp only [processRequestParams, processRequestQuery, processRequestBody,
        validateRequestParams, validateRequestQuery, validateRequestBody] <;>
      (repeat' split) <;>
      simp [sendErrors, nonEmptyErrorSend]

end ZodExpress
